import Mathlib

/-!
Shallow embedding of `monitor_availability.py` (room-availability monitor).

The script performs one availability check per invocation:
fetch a CSRF token, fetch an availability payload (JSON), derive a boolean
availability signal (`detect_available`), compare it with the persisted
previous state, notify on the unavailable→available edge, and persist the
new state.  Network and file-system effects are modelled explicitly:
fetch/notify outcomes are inputs of the model, and the run produces an
event trace plus the final state-file content.
-/

/-- JSON-shaped values: the payload type handled by `detect_available`
(Python's `json.load` output: `None`, `bool`, `int`/`float`, `str`,
`list`, `dict`).  Numbers are modelled as rationals. -/
inductive Json where
  | null : Json
  | bool (b : Bool) : Json
  | num (q : ℚ) : Json
  | str (s : String) : Json
  | arr (xs : List Json) : Json
  | obj (kvs : List (String × Json)) : Json

/-- `isinstance(value, (dict, list))` — the guard under which `search`
recurses into a value (src/monitor_availability.py:188). -/
def Json.isContainer : Json → Bool
  | Json.arr _ => true
  | Json.obj _ => true
  | _ => false

/-- Python's `str.lower()` (ASCII case folding, applied characterwise),
used as `str(key).lower()` and `value.lower()` in `detect_available`. -/
def pyLower (s : String) : String := String.mk (s.data.map Char.toLower)

/-- The fixed key set `availability_keys`
(src/monitor_availability.py:162-168). -/
def availability_keys : List String :=
  ["available", "availability", "inventory", "inventories", "vacancy"]

/-- Interpretation of the value under a matching key
(src/monitor_availability.py:176-185): `bool` → itself, `int`/`float` →
strictly positive, `str` → lowercase equals `"available"`; any other
shape is not decisive. -/
def valueDecisive : Json → Bool
  | Json.bool b => b
  | Json.num q => decide (0 < q)
  | Json.str s => pyLower s == "available"
  | _ => false

/-- `lkey in availability_keys` combined with the value interpretation:
one dict entry yields a hit (src/monitor_availability.py:173-185). -/
def keyHit (k : String) (v : Json) : Bool :=
  decide (pyLower k ∈ availability_keys) && valueDecisive v

mutual

/-- The inner `search` closure of `detect_available`
(src/monitor_availability.py:170-195): dict → scan entries,
list → scan items, scalar → no match. -/
def search : Json → Bool
  | Json.obj kvs => searchEntries kvs
  | Json.arr xs => searchItems xs
  | _ => false

/-- The `for key, value in obj.items()` loop: a key hit returns `True`;
independently of the key, a container value is searched recursively
(src/monitor_availability.py:172-190). -/
def searchEntries : List (String × Json) → Bool
  | [] => false
  | (k, v) :: rest =>
      keyHit k v || (if v.isContainer then search v else false) || searchEntries rest

/-- The `for item in obj` loop over a list
(src/monitor_availability.py:191-194). -/
def searchItems : List Json → Bool
  | [] => false
  | x :: xs => search x || searchItems xs

end

/-- `detect_available(data)` (src/monitor_availability.py:145-197):
run `search` on the payload. -/
def detect_available (data : Json) : Bool := search data

/-- Python truthiness `bool(x)` of a JSON-shaped value, as applied by
`bool(data.get("available", False))` (src/monitor_availability.py:215):
`None` → false, `bool` → itself, number → nonzero, string → nonempty,
list/dict → nonempty. -/
def pyTruthy : Json → Bool
  | Json.null => false
  | Json.bool b => b
  | Json.num q => decide (q ≠ 0)
  | Json.str s => decide (s ≠ "")
  | Json.arr xs => !xs.isEmpty
  | Json.obj kvs => !kvs.isEmpty

/-- Python `dict.get(key)` on the parsed object (`json.load` yields a
dict, so keys are unique; with duplicates in the raw text the last
binding wins, which this lookup mirrors). -/
def dictGet : List (String × Json) → String → Option Json
  | [], _ => none
  | (k, v) :: rest, key =>
      match dictGet rest key with
      | some v' => some v'
      | none => if k == key then some v else none

/-- Content of the state file as the invocation sees it: the path is
missing (or not a regular file), the file exists but `json.load` fails
on it, or it holds a parsed JSON value. -/
inductive FileContent where
  | missing : FileContent
  | invalid : FileContent
  | stored (j : Json) : FileContent

/-- `load_previous_state(path)` (src/monitor_availability.py:200-218):
missing path → `False`; `json.load` failure → caught, `False`; a parsed
non-dict → `data.get` raises `AttributeError`, caught, `False`; a dict →
`bool(data.get("available", False))`. -/
def load_previous_state : FileContent → Bool
  | FileContent.missing => false
  | FileContent.invalid => false
  | FileContent.stored (Json.obj kvs) =>
      pyTruthy ((dictGet kvs "available").getD (Json.bool false))
  | FileContent.stored _ => false

/-- `save_current_state(path, available)` (src/monitor_availability.py:221-232):
writes `json.dump({"available": available})` to the path. -/
def save_current_state (available : Bool) : FileContent :=
  FileContent.stored (Json.obj [("available", Json.bool available)])

/-- Fetch-stage failures: `requests` transport/HTTP errors, the missing
CSRF meta tag (`ValueError` in `fetch_csrf_token`), and a non-JSON body
(`ValueError` in `fetch_availability`). -/
inductive FetchErr where
  | transport : FetchErr
  | tokenNotFound : FetchErr
  | decodeErr : FetchErr

/-- Externally observable I/O actions of one invocation, in order. -/
inductive Event where
  | fetchToken : Event
  | fetchAvail : Event
  | readState : Event
  | notify : Event
  | writeState (b : Bool) : Event

def Event.isNotify : Event → Bool
  | Event.notify => true
  | _ => false

def Event.isRead : Event → Bool
  | Event.readState => true
  | _ => false

def Event.isWrite : Event → Bool
  | Event.writeState _ => true
  | _ => false

/-- The environment one invocation runs in: what each external call
would return, the `STOP_ON_AVAILABLE` flag, and the state file's
initial content. -/
structure Env where
  tokenResult : Except FetchErr String
  availResult : Except FetchErr Json
  notifyOk : Bool
  stopOnAvailable : Bool
  stateFile : FileContent

/-- Result of one invocation: the I/O trace and the final state file. -/
structure RunResult where
  trace : List Event
  finalFile : FileContent

/-- `monitor_once()` after configuration is read
(src/monitor_availability.py:254-320).  Token fetch failure → log and
return (line 277-281); availability fetch failure → log and return
(283-294); otherwise compute `currently_available` (296), load
`previous_available` (299), notify on the false→true edge (300-317) —
on notification success with `STOP_ON_AVAILABLE` set, save and return
early (313-317) — and finally save the current state (320). -/
def monitor_once (env : Env) : RunResult :=
  match env.tokenResult with
  | Except.error _ => { trace := [Event.fetchToken], finalFile := env.stateFile }
  | Except.ok _ =>
    match env.availResult with
    | Except.error _ =>
        { trace := [Event.fetchToken, Event.fetchAvail], finalFile := env.stateFile }
    | Except.ok payload =>
      let currently_available := detect_available payload
      let previous_available := load_previous_state env.stateFile
      if currently_available && !previous_available then
        if env.notifyOk then
          if env.stopOnAvailable then
            -- early return after saving (lines 313-317)
            { trace := [Event.fetchToken, Event.fetchAvail, Event.readState,
                        Event.notify, Event.writeState currently_available],
              finalFile := save_current_state currently_available }
          else
            -- fall through to the final save (line 320)
            { trace := [Event.fetchToken, Event.fetchAvail, Event.readState,
                        Event.notify, Event.writeState currently_available],
              finalFile := save_current_state currently_available }
        else
          -- notification failed: logged, then the final save (lines 308-309, 320)
          { trace := [Event.fetchToken, Event.fetchAvail, Event.readState,
                      Event.notify, Event.writeState currently_available],
            finalFile := save_current_state currently_available }
      else
        -- no transition: skip notification, final save (line 320)
        { trace := [Event.fetchToken, Event.fetchAvail, Event.readState,
                    Event.writeState currently_available],
          finalFile := save_current_state currently_available }

/-- Number of notification calls attempted in a run. -/
def notifyAttempts (r : RunResult) : Nat := r.trace.countP Event.isNotify

/-- Number of reads of the state file in a run. -/
def readCount (r : RunResult) : Nat := r.trace.countP Event.isRead

/-- Number of writes to the state file in a run. -/
def writeCount (r : RunResult) : Nat := r.trace.countP Event.isWrite

/-- Spec-side wording (§4.1): a value that signals availability — the
boolean `true`, a number strictly greater than zero, or a string whose
lowercase form equals `"available"`. -/
def SpecSignal (v : Json) : Prop :=
  v = Json.bool true ∨ (∃ q : ℚ, v = Json.num q ∧ 0 < q) ∨
    (∃ s : String, v = Json.str s ∧ pyLower s = "available")

/-- Spec-side wording (§4.1): somewhere in the tree — at any depth,
including inside sequences — there is a mapping entry whose key's
lowercase form is in the availability key set and whose value signals
availability. -/
inductive HasAvailEntry : Json → Prop where
  | here {kvs : List (String × Json)} {k : String} {v : Json} :
      (k, v) ∈ kvs → pyLower k ∈ availability_keys → SpecSignal v →
      HasAvailEntry (Json.obj kvs)
  | inObj {kvs : List (String × Json)} {k : String} {v : Json} :
      (k, v) ∈ kvs → HasAvailEntry v → HasAvailEntry (Json.obj kvs)
  | inArr {xs : List Json} {x : Json} :
      x ∈ xs → HasAvailEntry x → HasAvailEntry (Json.arr xs)

theorem valueDecisive_iff (v : Json) : valueDecisive v = true ↔ SpecSignal v := by
  cases v with
  | bool b => cases b <;> simp [valueDecisive, SpecSignal]
  | num q => simp [valueDecisive, SpecSignal]
  | str s => simp [valueDecisive, SpecSignal]
  | null => simp [valueDecisive, SpecSignal]
  | arr xs => simp [valueDecisive, SpecSignal]
  | obj kvs => simp [valueDecisive, SpecSignal]

theorem keyHit_iff (k : String) (v : Json) :
    keyHit k v = true ↔ (pyLower k ∈ availability_keys ∧ SpecSignal v) := by
  rw [keyHit, Bool.and_eq_true, decide_eq_true_iff, valueDecisive_iff]

theorem search_guard_eq (v : Json) :
    (if Json.isContainer v then search v else false) = search v := by
  cases v <;> simp [Json.isContainer, search]

theorem hasAvail_obj_iff (kvs : List (String × Json)) :
    HasAvailEntry (Json.obj kvs) ↔
      ∃ p : String × Json, p ∈ kvs ∧
        ((pyLower p.1 ∈ availability_keys ∧ SpecSignal p.2) ∨ HasAvailEntry p.2) := by
  constructor
  · intro h
    cases h with
    | here hmem hkey hsig => exact ⟨(_, _), hmem, Or.inl ⟨hkey, hsig⟩⟩
    | inObj hmem h' => exact ⟨(_, _), hmem, Or.inr h'⟩
  · rintro ⟨⟨k, v⟩, hmem, h | h⟩
    · exact HasAvailEntry.here hmem h.1 h.2
    · exact HasAvailEntry.inObj hmem h

theorem hasAvail_arr_iff (xs : List Json) :
    HasAvailEntry (Json.arr xs) ↔ ∃ x, x ∈ xs ∧ HasAvailEntry x := by
  constructor
  · intro h
    cases h with
    | inArr hmem h' => exact ⟨_, hmem, h'⟩
  · rintro ⟨x, hmem, h⟩
    exact HasAvailEntry.inArr hmem h

theorem hasAvail_scalar (v : Json) (hv : Json.isContainer v = false) :
    ¬ HasAvailEntry v := by
  intro h
  cases h <;> simp [Json.isContainer] at hv

theorem searchEntries_char : ∀ (kvs : List (String × Json)),
    (∀ p : String × Json, p ∈ kvs → (search p.2 = true ↔ HasAvailEntry p.2)) →
    (searchEntries kvs = true ↔
      ∃ p : String × Json, p ∈ kvs ∧
        ((pyLower p.1 ∈ availability_keys ∧ SpecSignal p.2) ∨ HasAvailEntry p.2)) := by
  intro kvs
  induction kvs with
  | nil => intro _; simp [searchEntries]
  | cons hd tl ihl =>
    intro ih
    obtain ⟨k, v⟩ := hd
    simp only [searchEntries, search_guard_eq, Bool.or_eq_true]
    rw [keyHit_iff, ih (k, v) (List.mem_cons_self _ _),
      ihl (fun p hp => ih p (List.mem_cons_of_mem _ hp)),
      List.exists_mem_cons_iff]

theorem searchItems_char : ∀ (xs : List Json),
    (∀ x : Json, x ∈ xs → (search x = true ↔ HasAvailEntry x)) →
    (searchItems xs = true ↔ ∃ x, x ∈ xs ∧ HasAvailEntry x) := by
  intro xs
  induction xs with
  | nil => intro _; simp [searchItems]
  | cons hd tl ihl =>
    intro ih
    simp only [searchItems, Bool.or_eq_true]
    rw [ih hd (List.mem_cons_self _ _),
      ihl (fun x hx => ih x (List.mem_cons_of_mem _ hx)),
      List.exists_mem_cons_iff]

theorem search_iff_aux : ∀ (n : ℕ) (j : Json), sizeOf j ≤ n →
    (search j = true ↔ HasAvailEntry j) := by
  intro n
  induction n with
  | zero => intro j hj; cases j <;> simp at hj
  | succ n ihn =>
    intro j hj
    cases j with
    | null =>
      constructor
      · intro h; simp [search] at h
      · intro h; exact absurd h (hasAvail_scalar _ rfl)
    | bool b =>
      constructor
      · intro h; simp [search] at h
      · intro h; exact absurd h (hasAvail_scalar _ rfl)
    | num q =>
      constructor
      · intro h; simp [search] at h
      · intro h; exact absurd h (hasAvail_scalar _ rfl)
    | str s =>
      constructor
      · intro h; simp [search] at h
      · intro h; exact absurd h (hasAvail_scalar _ rfl)
    | arr xs =>
      have hxs : ∀ x : Json, x ∈ xs → (search x = true ↔ HasAvailEntry x) := by
        intro x hx
        apply ihn
        have h1 : sizeOf x < sizeOf xs := List.sizeOf_lt_of_mem hx
        have h2 : sizeOf (Json.arr xs) = 1 + sizeOf xs := by simp
        omega
      rw [show search (Json.arr xs) = searchItems xs from by simp [search],
        searchItems_char xs hxs, hasAvail_arr_iff]
    | obj kvs =>
      have hkvs : ∀ p : String × Json, p ∈ kvs →
          (search p.2 = true ↔ HasAvailEntry p.2) := by
        intro p hp
        apply ihn
        have h1 : sizeOf p < sizeOf kvs := List.sizeOf_lt_of_mem hp
        have h2 : sizeOf (Json.obj kvs) = 1 + sizeOf kvs := by simp
        have h3 : sizeOf p.2 < sizeOf p := by
          obtain ⟨a, b⟩ := p; simp
        omega
      rw [show search (Json.obj kvs) = searchEntries kvs from by simp [search],
        searchEntries_char kvs hkvs, hasAvail_obj_iff]

theorem search_iff_hasAvail (j : Json) : search j = true ↔ HasAvailEntry j :=
  search_iff_aux (sizeOf j) j le_rfl

/-! Sanity checks: the spec's §8 test vectors for `detect_available`,
and the state-store round trip. -/

/-- Spec §8: `detect_available({"available": true})` → `true`. -/
theorem detect_example_flag :
    detect_available (Json.obj [("available", Json.bool true)]) = true := by
  simp [detect_available, search, searchEntries, keyHit, valueDecisive]
  decide

/-- Spec §8: `detect_available({"inventory": 0})` → `false`. -/
theorem detect_example_zero :
    detect_available (Json.obj [("inventory", Json.num 0)]) = false := by
  simp [detect_available, search, searchEntries, keyHit, valueDecisive, Json.isContainer]

/-- Spec §8: `detect_available({"a": {"b": [{"vacancy": "AVAILABLE"}]}})` → `true`. -/
theorem detect_example_nested :
    detect_available
      (Json.obj [("a", Json.obj
        [("b", Json.arr [Json.obj [("vacancy", Json.str "AVAILABLE")]])])]) = true := by
  simp [detect_available, search, searchEntries, searchItems, keyHit, valueDecisive,
    Json.isContainer]
  decide

/-- Round trip of the state store: what `save_current_state` writes,
`load_previous_state` reads back unchanged. -/
theorem load_save (b : Bool) :
    load_previous_state (save_current_state b) = b := by
  cases b <;> decide

/-! Concrete environments used to instantiate the hypothesised theorems. -/

/-- A payload carrying a top-level availability flag. -/
def payloadAvail : Json := Json.obj [("available", Json.bool true)]

/-- Both fetches succeed, the flag payload, notification deliverable,
`STOP_ON_AVAILABLE` unset, no prior state file. -/
def envEdge : Env :=
  { tokenResult := Except.ok "tok", availResult := Except.ok payloadAvail,
    notifyOk := true, stopOnAvailable := false, stateFile := FileContent.missing }

/-- Token fetch fails with a transport error; prior state on disk. -/
def envFetchFail : Env :=
  { tokenResult := Except.error FetchErr.transport, availResult := Except.ok Json.null,
    notifyOk := true, stopOnAvailable := false,
    stateFile := FileContent.stored (Json.obj [("available", Json.bool false)]) }

/-- Both fetches succeed with an unavailable payload, no prior state. -/
def envPlain : Env :=
  { tokenResult := Except.ok "tok", availResult := Except.ok Json.null,
    notifyOk := true, stopOnAvailable := false, stateFile := FileContent.missing }

/-- Transition detected but the notification delivery fails. -/
def envNotifyFail : Env :=
  { tokenResult := Except.ok "tok", availResult := Except.ok payloadAvail,
    notifyOk := false, stopOnAvailable := false, stateFile := FileContent.missing }

/-- Stored state already `true`, new signal `true`. -/
def envSteady : Env :=
  { tokenResult := Except.ok "tok", availResult := Except.ok payloadAvail,
    notifyOk := true, stopOnAvailable := false,
    stateFile := FileContent.stored (Json.obj [("available", Json.bool true)]) }

/-- C3: for every JSON-shaped payload, `detect_available` returns `true`
iff somewhere in the tree — at any depth, including inside sequences —
there is a mapping entry whose key's lowercase form is one of
`{available, availability, inventory, inventories, vacancy}` and whose
value is the boolean `true`, a number strictly greater than zero, or a
string whose lowercase form equals `"available"`; otherwise `false`. -/
theorem C3_detect_available_iff_spec (payload : Json) :
    detect_available payload = true ↔ HasAvailEntry payload :=
  search_iff_hasAvail payload

/-- C4: `detect_available` is total — on every JSON-shaped value
(including `null`, empty mappings and empty sequences) it is defined and
yields a boolean; the degenerate shapes yield `false`. -/
theorem C4_detect_available_total (payload : Json) :
    (detect_available payload = true ∨ detect_available payload = false) ∧
      detect_available Json.null = false ∧
      detect_available (Json.obj []) = false ∧
      detect_available (Json.arr []) = false := by
  refine ⟨?_, ?_, ?_, ?_⟩
  · cases h : detect_available payload
    · exact Or.inr rfl
    · exact Or.inl rfl
  · simp [detect_available, search]
  · simp [detect_available, search, searchEntries]
  · simp [detect_available, search, searchItems]

/-- C1: in every invocation that reaches the signal-computed stage, a
notification is attempted iff the computed signal is `true` and the
loaded previous state is `false` — and then exactly one notification
call is made. -/
theorem C1_notify_iff_transition (env : Env) (t : String) (p : Json)
    (ht : env.tokenResult = Except.ok t) (hp : env.availResult = Except.ok p) :
    notifyAttempts (monitor_once env) =
      (if detect_available p && !load_previous_state env.stateFile then 1 else 0) := by
  simp only [monitor_once, ht, hp]
  cases hc : detect_available p <;> cases hb : load_previous_state env.stateFile <;>
    cases hn : env.notifyOk <;> cases hs : env.stopOnAvailable <;>
      simp [notifyAttempts, Event.isNotify, hn, hs]

theorem C1_witness :
    notifyAttempts (monitor_once envEdge) = 1 ∧ notifyAttempts (monitor_once envSteady) = 0 := by
  constructor
  · rw [C1_notify_iff_transition envEdge "tok" payloadAvail rfl rfl]
    rw [show detect_available payloadAvail = true from detect_example_flag]
    decide
  · rw [C1_notify_iff_transition envSteady "tok" payloadAvail rfl rfl]
    rw [show detect_available payloadAvail = true from detect_example_flag]
    decide

/-- C2: if the token fetch or the availability fetch fails, no
notification call occurs and the state file is not written — it is left
exactly as before the invocation. -/
theorem C2_fetch_failure_no_side_effects (env : Env)
    (h : env.tokenResult.isOk = false ∨ env.availResult.isOk = false) :
    notifyAttempts (monitor_once env) = 0 ∧
      writeCount (monitor_once env) = 0 ∧
      (monitor_once env).finalFile = env.stateFile := by
  obtain ⟨tr, ar, n, s, f⟩ := env
  cases tr with
  | error e =>
    simp [monitor_once, notifyAttempts, writeCount, Event.isNotify, Event.isWrite]
  | ok t =>
    cases ar with
    | error e =>
      simp [monitor_once, notifyAttempts, writeCount, Event.isNotify, Event.isWrite]
    | ok p => simp [Except.isOk, Except.toBool] at h

theorem C2_witness :
    notifyAttempts (monitor_once envFetchFail) = 0 ∧
      writeCount (monitor_once envFetchFail) = 0 ∧
      (monitor_once envFetchFail).finalFile = envFetchFail.stateFile :=
  C2_fetch_failure_no_side_effects envFetchFail (Or.inl rfl)

/-- C5: whenever both fetches succeed, the state file finishes holding
exactly the signal computed from that invocation's payload — on the
notified, skipped and failed-notification paths alike — and an absent
state file reads back as `false`. -/
theorem C5_state_saved_equals_signal (env : Env) (t : String) (p : Json)
    (ht : env.tokenResult = Except.ok t) (hp : env.availResult = Except.ok p) :
    (monitor_once env).finalFile = save_current_state (detect_available p) ∧
      load_previous_state ((monitor_once env).finalFile) = detect_available p ∧
      load_previous_state FileContent.missing = false := by
  have hfile : (monitor_once env).finalFile = save_current_state (detect_available p) := by
    simp only [monitor_once, ht, hp]
    cases hc : detect_available p <;> cases hb : load_previous_state env.stateFile <;>
      cases hn : env.notifyOk <;> cases hs : env.stopOnAvailable <;> simp [hn, hs]
  exact ⟨hfile, by rw [hfile, load_save], rfl⟩

theorem C5_witness :
    (monitor_once envPlain).finalFile = save_current_state (detect_available Json.null) ∧
      load_previous_state ((monitor_once envPlain).finalFile) =
        detect_available Json.null ∧
      load_previous_state FileContent.missing = false :=
  C5_state_saved_equals_signal envPlain "tok" Json.null rfl rfl

/-- The record shape the spec documents for the state file:
`{"available": <bool>}`. -/
def ExpectedRecord (j : Json) : Prop :=
  ∃ b : Bool, j = Json.obj [("available", Json.bool b)]

/-- C6 counterexample: the file `{"available": "yes"}` exists, is not
the expected record structure `{"available": <bool>}`, yet
`load_previous_state` returns `true` for it, not `false` — Python's
`bool(data.get("available", False))` coerces the non-boolean value. -/
theorem C6_counterexample :
    ¬ ExpectedRecord (Json.obj [("available", Json.str "yes")]) ∧
      load_previous_state
        (FileContent.stored (Json.obj [("available", Json.str "yes")])) = true := by
  constructor
  · rintro ⟨b, hb⟩
    simp at hb
  · decide

/-- C6 amended: `load_previous_state` returns `false` when the path does
not exist, when the file is not valid JSON, and when the parsed value is
not a mapping; on a mapping it returns the Python truthiness of the
value under the key `"available"` (absent key → `false`), which accepts
non-boolean values rather than rejecting them. -/
theorem C6_load_characterization (fc : FileContent) :
    load_previous_state fc = true ↔
      ∃ kvs v, fc = FileContent.stored (Json.obj kvs) ∧
        dictGet kvs "available" = some v ∧ pyTruthy v = true := by
  cases fc with
  | missing => simp [load_previous_state]
  | invalid => simp [load_previous_state]
  | stored j =>
    cases j with
    | obj kvs =>
      simp only [load_previous_state]
      cases hv : dictGet kvs "available" with
      | none => simp [hv, pyTruthy]
      | some v => simp [hv]
    | null => simp [load_previous_state]
    | bool b => simp [load_previous_state]
    | num q => simp [load_previous_state]
    | str s => simp [load_previous_state]
    | arr xs => simp [load_previous_state]

/-- C7: when a transition is detected and the notification delivery
fails, the failure is not escalated — the invocation still reaches the
save, and the stored state equals the current signal. -/
theorem C7_failed_notification_still_persists (env : Env) (t : String) (p : Json)
    (ht : env.tokenResult = Except.ok t) (hp : env.availResult = Except.ok p)
    (hcurr : detect_available p = true)
    (hprev : load_previous_state env.stateFile = false)
    (hfail : env.notifyOk = false) :
    notifyAttempts (monitor_once env) = 1 ∧
      writeCount (monitor_once env) = 1 ∧
      (monitor_once env).finalFile = save_current_state (detect_available p) ∧
      load_previous_state ((monitor_once env).finalFile) = true := by
  have hres : monitor_once env =
      { trace := [Event.fetchToken, Event.fetchAvail, Event.readState,
                  Event.notify, Event.writeState true],
        finalFile := save_current_state true } := by
    simp [monitor_once, ht, hp, hcurr, hprev, hfail]
  rw [hres, hcurr]
  refine ⟨?_, ?_, rfl, load_save true⟩
  · simp [notifyAttempts, Event.isNotify]
  · simp [writeCount, Event.isWrite]

theorem C7_witness :
    notifyAttempts (monitor_once envNotifyFail) = 1 ∧
      writeCount (monitor_once envNotifyFail) = 1 ∧
      (monitor_once envNotifyFail).finalFile =
        save_current_state (detect_available payloadAvail) ∧
      load_previous_state ((monitor_once envNotifyFail).finalFile) = true :=
  C7_failed_notification_still_persists envNotifyFail "tok" payloadAvail rfl rfl
    detect_example_flag rfl rfl

/-- C8: state-store round trip — saving `true` then loading yields
`true`, and in general saving any boolean then loading yields it back;
a nonexistent file loads as `false`. -/
theorem C8_state_roundtrip (b : Bool) :
    load_previous_state (save_current_state true) = true ∧
      load_previous_state (save_current_state b) = b ∧
      load_previous_state FileContent.missing = false :=
  ⟨load_save true, load_save b, rfl⟩

/-- C9 counterexample: in a successful invocation the trace is
fetch-token, fetch-availability, read-state, write-state — the state
file is NOT read at the start of the invocation before the network
fetches (`load_previous_state` runs only at line 299, after both
fetches). -/
theorem C9_counterexample :
    (monitor_once envPlain).trace =
      [Event.fetchToken, Event.fetchAvail, Event.readState, Event.writeState false] ∧
      (monitor_once envPlain).trace.head? ≠ some Event.readState := by
  have hd : detect_available Json.null = false := by simp [detect_available, search]
  have hres : (monitor_once envPlain).trace =
      [Event.fetchToken, Event.fetchAvail, Event.readState, Event.writeState false] := by
    simp [monitor_once, envPlain, hd, load_previous_state]
  refine ⟨hres, ?_⟩
  rw [hres]
  simp

/-- C9 amended: in every invocation in which both fetches succeed, the
state file is read exactly once — after the network fetches, before the
write — and written exactly once, at the end, with the computed signal;
a fetch-stage failure leaves the file untouched: it is neither read nor
written. -/
theorem C9_read_once_after_fetch :
    (∀ (env : Env) (t : String) (p : Json),
        env.tokenResult = Except.ok t → env.availResult = Except.ok p →
        readCount (monitor_once env) = 1 ∧ writeCount (monitor_once env) = 1 ∧
        ∃ mid : List Event,
          (monitor_once env).trace =
            [Event.fetchToken, Event.fetchAvail, Event.readState] ++ mid ++
              [Event.writeState (detect_available p)] ∧
          ∀ e ∈ mid, e = Event.notify) ∧
    (∀ env : Env,
        env.tokenResult.isOk = false ∨ env.availResult.isOk = false →
        readCount (monitor_once env) = 0 ∧ writeCount (monitor_once env) = 0 ∧
        (monitor_once env).finalFile = env.stateFile) := by
  constructor
  · intro env t p ht hp
    simp only [monitor_once, ht, hp]
    cases hc : detect_available p <;> cases hb : load_previous_state env.stateFile <;>
      cases hn : env.notifyOk <;> cases hs : env.stopOnAvailable <;>
        refine ⟨by simp [readCount, Event.isRead, hn, hs],
          by simp [writeCount, Event.isWrite, hn, hs], ?_⟩
    case false.false.false.false => exact ⟨[], by simp, by simp⟩
    case false.false.false.true => exact ⟨[], by simp, by simp⟩
    case false.false.true.false => exact ⟨[], by simp, by simp⟩
    case false.false.true.true => exact ⟨[], by simp, by simp⟩
    case false.true.false.false => exact ⟨[], by simp, by simp⟩
    case false.true.false.true => exact ⟨[], by simp, by simp⟩
    case false.true.true.false => exact ⟨[], by simp, by simp⟩
    case false.true.true.true => exact ⟨[], by simp, by simp⟩
    case true.false.false.false => exact ⟨[Event.notify], by simp, by simp⟩
    case true.false.false.true => exact ⟨[Event.notify], by simp, by simp⟩
    case true.false.true.false => exact ⟨[Event.notify], by simp, by simp⟩
    case true.false.true.true => exact ⟨[Event.notify], by simp, by simp⟩
    case true.true.false.false => exact ⟨[], by simp, by simp⟩
    case true.true.false.true => exact ⟨[], by simp, by simp⟩
    case true.true.true.false => exact ⟨[], by simp, by simp⟩
    case true.true.true.true => exact ⟨[], by simp, by simp⟩
  · intro env h
    obtain ⟨tr, ar, n, s, f⟩ := env
    cases tr with
    | error e => simp [monitor_once, readCount, writeCount, Event.isRead, Event.isWrite]
    | ok t =>
      cases ar with
      | error e => simp [monitor_once, readCount, writeCount, Event.isRead, Event.isWrite]
      | ok p => simp [Except.isOk, Except.toBool] at h

theorem C9_witness :
    readCount (monitor_once envPlain) = 1 ∧ readCount (monitor_once envFetchFail) = 0 :=
  ⟨(C9_read_once_after_fetch.1 envPlain "tok" Json.null rfl rfl).1,
    (C9_read_once_after_fetch.2 envFetchFail (Or.inl rfl)).1⟩

/-- The `STOP_ON_AVAILABLE` flag does not change the run at all: its only
effect, the early return at lines 313-317, happens after the same save
and the same notification attempt the fall-through path performs. -/
theorem monitor_once_stop_independent (env : Env) (b : Bool) :
    monitor_once { env with stopOnAvailable := b } = monitor_once env := by
  obtain ⟨tr, ar, n, s, f⟩ := env
  cases tr with
  | error e => rfl
  | ok t =>
    cases ar with
    | error e => rfl
    | ok p =>
      simp only [monitor_once]
      cases detect_available p <;> cases load_previous_state f <;>
        cases n <;> cases b <;> cases s <;> rfl

/-- C10: the stop-on-first-notification flag is noninterfering — with or
without `STOP_ON_AVAILABLE`, an invocation attempts the same
notifications, performs the same writes, and ends with the same state
file. -/
theorem C10_stop_flag_noninterference (env : Env) (b : Bool) :
    notifyAttempts (monitor_once { env with stopOnAvailable := b }) =
        notifyAttempts (monitor_once env) ∧
      writeCount (monitor_once { env with stopOnAvailable := b }) =
        writeCount (monitor_once env) ∧
      (monitor_once { env with stopOnAvailable := b }).finalFile =
        (monitor_once env).finalFile := by
  rw [monitor_once_stop_independent env b]
  exact ⟨rfl, rfl, rfl⟩
